import Mathlib

/-!
Verification of the CarbonTally carbon-sequestration estimation engine
(`carbonfao.py`, with the duplicate CO2 computations in
`kobo_integration.py` and `monitoring_app.py`).

The embedding follows the Python source closely:
* a Python argument slot that the code probes with
  `isinstance(x, (int, float))` is modelled by `PyNum`
  (`None`, a numeric value, or any non-numeric value);
* the `species` argument, probed with `isinstance(species, str)`, is
  modelled by `PySpecies` (a string, or any non-string value including
  `None`);
* Python floats are modelled as real numbers; the allometric coefficient
  triples, which come from literal tables, are modelled over `ℚ` so that
  table lookups stay decidable, and are cast to `ℝ` inside the numeric
  pipeline;
* `float ** float` is modelled by `Real.rpow` (the bases that reach it are
  positive, where the two agree);
* the loaded AEZ GeoDataFrame is modelled as a list of zones, each a
  containment test on points together with its `gez_name` attribute; a
  load failure leaves the list empty, exactly as the source falls back to
  an empty GeoDataFrame;
* `raise ValueError` is modelled by `Except.error`.
-/

namespace CarbonTally

/-- A Python value passed in a numeric argument slot: `None`, a numeric
value (`isinstance(x, (int, float))` holds), or any non-numeric value. -/
inductive PyNum where
  | none
  | num (x : ℝ)
  | nonNum

/-- Whether `isinstance(x, (int, float))` holds. -/
def PyNum.isNum : PyNum → Bool
  | .num _ => true
  | _ => false

/-- A Python value passed in the `species` slot: a string, or any
non-string value (including `None`). -/
inductive PySpecies where
  | str (s : String)
  | nonStr

/-- An allometric coefficient triple `{a, b, c}`. -/
structure Coeffs where
  a : ℚ
  b : ℚ
  c : ℚ
deriving DecidableEq

/-- A table mapping normalized names to coefficient triples (the loaded
`SPECIES_ALLOMETRIC` dict, and the literal `aez_table`). -/
abbrev CoeffTable := List (String × Coeffs)

/-- Python `key in table` / `table[key]` on a coefficient dict. -/
def lookupCoeffs (table : CoeffTable) (key : String) : Option Coeffs :=
  (table.find? (fun p => p.1 == key)).map Prod.snd

/-- One record of the loaded AEZ GeoDataFrame: its geometry, abstracted to
the strict containment test shapely provides, and its `gez_name`
attribute. Points are `(longitude, latitude)` pairs, the order in which
`Point(lon, lat)` is built in the source. -/
structure Zone where
  containsPt : ℝ × ℝ → Bool
  gez_name : String

/-- `carbonfao.get_agro_ecological_zone(lat, lon, gdf)`: `None` when the
GeoDataFrame is empty (the load-failure fallback), otherwise the
`gez_name` of the first row whose geometry contains `Point(lon, lat)`,
and `None` when no row does. -/
def get_agro_ecological_zone (lat lon : ℝ) (gdf : List Zone) : Option String :=
  if gdf.isEmpty then Option.none
  else (gdf.find? (fun z => z.containsPt (lon, lat))).map Zone.gez_name

/-- Python `str.lower()` (modelled character-wise, ASCII case folding). -/
def pyLower (s : String) : String := ⟨s.data.map Char.toLower⟩

/-- Python `str.strip()`: drop whitespace from both ends. -/
def pyStrip (s : String) : String :=
  ⟨(((s.data.dropWhile Char.isWhitespace).reverse).dropWhile Char.isWhitespace).reverse⟩

/-- The species-key normalization in `get_aez_coefficients`:
`species.strip().lower() if isinstance(species, str) else ""`. -/
def normalizeSpecies : PySpecies → String
  | .str s => pyLower (pyStrip s)
  | .nonStr => ""

/-- The literal `aez_table` of `carbonfao.get_aez_coefficients`. -/
def aez_table : CoeffTable :=
  [("Tropical Rainforest", ⟨0.0509, 2.4, 1.0⟩),
   ("Tropical Moist Forest", ⟨0.060, 2.3, 1.0⟩),
   ("Tropical Dry Forest", ⟨0.045, 2.5, 1.0⟩),
   ("Temperate Forest", ⟨0.034, 2.6, 1.0⟩),
   ("Subtropical Northern Hemisphere", ⟨0.030, 2.4, 1.0⟩),
   ("Subtropical Southern Hemisphere", ⟨0.035, 2.3, 1.0⟩)]

/-- The hard-coded default triple of `get_aez_coefficients`. -/
def defaultCoeffs : Coeffs := ⟨0.25, 2.0, 1.0⟩

/-- `carbonfao.get_aez_coefficients(aez_identifier, species)`, with the
loaded species table passed explicitly: species lookup first, then the
zone table, then the default. Total by construction: it returns a triple
for every input, raising nothing. -/
def get_aez_coefficients (speciesTable : CoeffTable)
    (aez_identifier : Option String) (species : PySpecies) : Coeffs :=
  let species_key := normalizeSpecies species
  match lookupCoeffs speciesTable species_key with
  | some cs => cs
  | Option.none =>
    match aez_identifier.bind (fun z => lookupCoeffs aez_table z) with
    | some cs => cs
    | Option.none => defaultCoeffs

/-- Stage 1 of the numeric pipeline, `carbonfao.py` line 139:
`agb_kg = a * (dbh_cm ** b) * (height_m ** c)`. -/
noncomputable def agb_kg (a b c dbh_cm height_m : ℝ) : ℝ :=
  a * dbh_cm ^ b * height_m ^ c

/-- Stage 2, line 144: `total_biomass = agb_kg * 1.2`. -/
noncomputable def total_biomass (agb_kg : ℝ) : ℝ := agb_kg * 1.2

/-- Stage 3, line 148: `dry_weight = total_biomass * 0.725`. -/
noncomputable def dry_weight (total_biomass : ℝ) : ℝ := total_biomass * 0.725

/-- Stage 4, line 152: `carbon_kg = dry_weight * 0.5`. -/
noncomputable def carbon_kg (dry_weight : ℝ) : ℝ := dry_weight * 0.5

/-- Stage 5, line 156: `co2_kg = carbon_kg * 3.67`. -/
noncomputable def co2_kg (carbon_kg : ℝ) : ℝ := carbon_kg * 3.67

/-- The five stages composed, exactly as lines 139-156 chain them. -/
noncomputable def co2_pipeline (a b c dbh_cm height_m : ℝ) : ℝ :=
  co2_kg (carbon_kg (dry_weight (total_biomass (agb_kg a b c dbh_cm height_m))))

/-- Lines 116-118 of `calculate_co2_sequestered`: if `dbh_cm` is `None`
and `rcd_cm` is not, replace it by `rcd_cm * 0.8`. -/
noncomputable def resolveDbh (dbh_cm : PyNum) (rcd_cm : Option ℝ) : PyNum :=
  match dbh_cm, rcd_cm with
  | .none, some r => .num (r * 0.8)
  | d, _ => d

/-- Lines 126-131: the AEZ identifier is resolved only when both
coordinates are given; `float()` on a float succeeds, and any lookup
error is swallowed (`get_agro_ecological_zone` is total here). -/
def resolveZone (gdf : List Zone) (latitude longitude : Option ℝ) : Option String :=
  match latitude, longitude with
  | some la, some lo => get_agro_ecological_zone la lo gdf
  | _, _ => Option.none

/-- Lines 120-159 of `calculate_co2_sequestered`, applied to the
already-resolved diameter: the numeric check (`raise ValueError`
otherwise), the non-positive-dimension short-circuit to `0.0`, then zone
resolution, coefficient resolution and the five-stage pipeline. -/
noncomputable def calcFromDims (gdf : List Zone) (speciesTable : CoeffTable)
    (dbh_cm height_m : PyNum) (species : PySpecies)
    (latitude longitude : Option ℝ) : Except String ℝ :=
  match dbh_cm, height_m with
  | .num d, .num h =>
    if d ≤ 0 ∨ h ≤ 0 then Except.ok 0
    else
      let cs := get_aez_coefficients speciesTable (resolveZone gdf latitude longitude) species
      Except.ok (co2_pipeline (cs.a : ℝ) (cs.b : ℝ) (cs.c : ℝ) d h)
  | _, _ => Except.error "DBH (or RCD) and height must be numeric values"

/-- `carbonfao.calculate_co2_sequestered(dbh_cm, height_m, rcd_cm,
species, latitude, longitude)`, with the loaded GeoDataFrame and species
table passed explicitly. `Except.error` models the raised `ValueError`. -/
noncomputable def calculate_co2_sequestered (gdf : List Zone) (speciesTable : CoeffTable)
    (dbh_cm height_m : PyNum) (rcd_cm : Option ℝ) (species : PySpecies)
    (latitude longitude : Option ℝ) : Except String ℝ :=
  calcFromDims gdf speciesTable (resolveDbh dbh_cm rcd_cm) height_m species latitude longitude

namespace KoboIntegration

/-- `kobo_integration.calculate_co2_sequestered(dbh_cm, height_m)`: the
monitoring-side reimplementation, with its own formula
`0.25 * 3.14159 * (dbh_cm / 100)**2 * height_m * 600 * 0.5 * 3.67`. -/
noncomputable def calculate_co2_sequestered (dbh_cm height_m : Option ℝ) : ℝ :=
  match dbh_cm, height_m with
  | some d, some h =>
    if d ≤ 0 ∨ h ≤ 0 then 0
    else 0.25 * 3.14159 * (d / 100) ^ (2 : ℕ) * h * 600 * 0.5 * 3.67

  | _, _ => 0

end KoboIntegration

namespace MonitoringApp

/-- The inlined step-by-step recomputation in `monitoring_app.py` lines
29-34: `agb = a * (dbh ** b) * (height ** c)`, then
`total_biomass = agb * 1.2`, `dry_weight = total_biomass * 0.725`,
`carbon = dry_weight * 0.5`, `co2_check = carbon * 3.67`. -/
noncomputable def co2_check (a b c dbh height : ℝ) : ℝ :=
  let agb := a * dbh ^ b * height ^ c
  let tb := agb * 1.2
  let dw := tb * 0.725
  let carbon := dw * 0.5
  carbon * 3.67

end MonitoringApp

/-- The spec's `EstimationResult` record (§3, §6): the final CO2 mass
together with the resolved zone, the resolved coefficients and every
intermediate value. -/
structure EstimationResult where
  co2_kg : ℝ
  zone : Option String
  coefficients : Coeffs
  agb_kg : ℝ
  total_biomass_kg : ℝ
  dry_weight_kg : ℝ
  carbon_kg : ℝ

/-- Modelled from the spec: the `estimate` of §4.3/§6 as the spec words
it, returning the full `EstimationResult` record (the repository's code
returns only the final float). The zero-dimension short-circuit returns
`co2_kg = 0.0` before zone or coefficient resolution, so those fields
carry the defaults there. -/
noncomputable def estimate_spec (gdf : List Zone) (speciesTable : CoeffTable)
    (dbh_cm height_m : PyNum) (rcd_cm : Option ℝ) (species : PySpecies)
    (latitude longitude : Option ℝ) : Except String EstimationResult :=
  match resolveDbh dbh_cm rcd_cm, height_m with
  | .num d, .num h =>
    if d ≤ 0 ∨ h ≤ 0 then Except.ok ⟨0, Option.none, defaultCoeffs, 0, 0, 0, 0⟩
    else
      let z := resolveZone gdf latitude longitude
      let cs := get_aez_coefficients speciesTable z species
      let agb := agb_kg (cs.a : ℝ) (cs.b : ℝ) (cs.c : ℝ) d h
      let tb := total_biomass agb
      let dw := dry_weight tb
      let cb := carbon_kg dw
      Except.ok ⟨co2_kg cb, z, cs, agb, tb, dw, cb⟩
  | _, _ => Except.error "InvalidInput"

/-- C2: `get_aez_coefficients` resolves by the fixed three-level
priority: a species whose normalized name is a key of the species table
wins regardless of the zone; otherwise a zone that is a key of the fixed
zone table wins; otherwise the default `{a: 0.25, b: 2.0, c: 1.0}` is
returned. The function is total by construction (it is a Lean function
returning `Coeffs` for every input, both arguments absent included). -/
theorem c2_coefficient_priority (T : CoeffTable) (z : Option String) (s : PySpecies) :
    (∀ cs, lookupCoeffs T (normalizeSpecies s) = some cs →
      get_aez_coefficients T z s = cs) ∧
    (lookupCoeffs T (normalizeSpecies s) = Option.none →
      ∀ zn cs, z = some zn → lookupCoeffs aez_table zn = some cs →
        get_aez_coefficients T z s = cs) ∧
    (lookupCoeffs T (normalizeSpecies s) = Option.none →
      z.bind (fun zn => lookupCoeffs aez_table zn) = Option.none →
        get_aez_coefficients T z s = ⟨0.25, 2.0, 1.0⟩) := by
  refine ⟨fun cs h => ?_, fun h zn cs hz hzn => ?_, fun h hz => ?_⟩
  · simp only [get_aez_coefficients, h]
  · simp only [get_aez_coefficients, h, hz, Option.bind, hzn]
  · simp only [get_aez_coefficients, h, hz, defaultCoeffs]

/-- C2 witness: a species match (note the normalization of `" Oak "`)
beating a recognized zone; a zone match for an unknown species; the
default when neither matches. -/
theorem c2_coefficient_priority_witness :
    get_aez_coefficients [("oak", ⟨0.06, 2.3, 1.0⟩)] (some "Tropical Rainforest")
        (PySpecies.str " Oak ") = ⟨0.06, 2.3, 1.0⟩ ∧
    get_aez_coefficients [("oak", ⟨0.06, 2.3, 1.0⟩)] (some "Tropical Rainforest")
        (PySpecies.str "baobab") = ⟨0.0509, 2.4, 1.0⟩ ∧
    get_aez_coefficients [("oak", ⟨0.06, 2.3, 1.0⟩)] Option.none PySpecies.nonStr
        = ⟨0.25, 2.0, 1.0⟩ :=
  ⟨(c2_coefficient_priority [("oak", ⟨0.06, 2.3, 1.0⟩)] (some "Tropical Rainforest")
      (PySpecies.str " Oak ")).1 _ rfl,
   (c2_coefficient_priority [("oak", ⟨0.06, 2.3, 1.0⟩)] (some "Tropical Rainforest")
      (PySpecies.str "baobab")).2.1 rfl _ _ rfl rfl,
   (c2_coefficient_priority [("oak", ⟨0.06, 2.3, 1.0⟩)] Option.none
      PySpecies.nonStr).2.2 rfl rfl⟩

/-- C10: `get_aez_coefficients` is total in its species argument beyond
the string-or-absent type: a non-string species (`None`, a number, any
object) raises nothing — the function is total by construction — and is
normalized to the empty string, so (whenever the loaded species table has
no empty-string key, which a table keyed by real species names never has)
resolution falls through to the zone table or the default triple. -/
theorem c10_nonstring_species (T : CoeffTable) (z : Option String)
    (hT : lookupCoeffs T "" = Option.none) :
    normalizeSpecies PySpecies.nonStr = "" ∧
    get_aez_coefficients T z PySpecies.nonStr =
      (z.bind (fun zn => lookupCoeffs aez_table zn)).getD ⟨0.25, 2.0, 1.0⟩ := by
  refine ⟨rfl, ?_⟩
  simp only [get_aez_coefficients, normalizeSpecies, hT]
  cases hz : z.bind (fun zn => lookupCoeffs aez_table zn) <;> simp [hz, defaultCoeffs]

/-- C10 witness: a non-string species against a table that does know
`"oak"` falls through to the `"Temperate Forest"` zone coefficients. -/
theorem c10_nonstring_species_witness :
    normalizeSpecies PySpecies.nonStr = "" ∧
    get_aez_coefficients [("oak", ⟨0.06, 2.3, 1.0⟩)] (some "Temperate Forest")
        PySpecies.nonStr =
      ((some "Temperate Forest").bind (fun zn => lookupCoeffs aez_table zn)).getD
        ⟨0.25, 2.0, 1.0⟩ :=
  c10_nonstring_species [("oak", ⟨0.06, 2.3, 1.0⟩)] (some "Temperate Forest") rfl

/-- C4: whenever the resolved diameter and the height are numeric and one
of them is non-positive, the estimator returns exactly `co2_kg = 0.0` as
an `Except.ok` (a defined non-error outcome). The GeoDataFrame, the
species table, the species and the coordinates are universally
quantified and absent from the result, so the zero result consults
neither the zone resolver nor the coefficient resolver. -/
theorem c4_zero_dimension (gdf : List Zone) (T : CoeffTable)
    (dbh_cm height_m : PyNum) (rcd_cm : Option ℝ) (s : PySpecies)
    (la lo : Option ℝ) (d h : ℝ)
    (hd : resolveDbh dbh_cm rcd_cm = PyNum.num d) (hh : height_m = PyNum.num h)
    (hz : d ≤ 0 ∨ h ≤ 0) :
    calculate_co2_sequestered gdf T dbh_cm height_m rcd_cm s la lo = Except.ok 0 := by
  simp only [calculate_co2_sequestered, hd, hh, calcFromDims, if_pos hz]

/-- C4 witness: the two P2 instances, `dbh_cm=0, height_m=5` and
`dbh_cm=5, height_m=0`, both yield exactly `0.0`. -/
theorem c4_zero_dimension_witness :
    calculate_co2_sequestered [] [] (PyNum.num 0) (PyNum.num 5) Option.none
        PySpecies.nonStr Option.none Option.none = Except.ok 0 ∧
    calculate_co2_sequestered [] [] (PyNum.num 5) (PyNum.num 0) Option.none
        PySpecies.nonStr Option.none Option.none = Except.ok 0 :=
  ⟨c4_zero_dimension [] [] (PyNum.num 0) (PyNum.num 5) Option.none
      PySpecies.nonStr Option.none Option.none 0 5 rfl rfl (Or.inl le_rfl),
   c4_zero_dimension [] [] (PyNum.num 5) (PyNum.num 0) Option.none
      PySpecies.nonStr Option.none Option.none 5 0 rfl rfl (Or.inr le_rfl)⟩

/-- C6: with `dbh_cm` absent and `rcd_cm` present, the estimator derives
the internal diameter as exactly `rcd_cm * 0.8` before validation and the
pipeline, so for every height, species and coordinates the call equals
the call with `dbh_cm = rcd_cm * 0.8` directly; in particular
`rcd_cm = 10` resolves to an internal DBH of exactly `8.0` and the whole
call equals the `dbh_cm = 8.0` call. -/
theorem c6_rcd_fallback (gdf : List Zone) (T : CoeffTable) (height_m : PyNum)
    (r : ℝ) (s : PySpecies) (la lo : Option ℝ) :
    calculate_co2_sequestered gdf T PyNum.none height_m (some r) s la lo =
      calculate_co2_sequestered gdf T (PyNum.num (r * 0.8)) height_m Option.none s la lo ∧
    resolveDbh PyNum.none (some (10 : ℝ)) = PyNum.num 8 ∧
    calculate_co2_sequestered gdf T PyNum.none height_m (some (10 : ℝ)) s la lo =
      calculate_co2_sequestered gdf T (PyNum.num 8) height_m Option.none s la lo := by
  have h10 : resolveDbh PyNum.none (some (10 : ℝ)) = PyNum.num 8 := by
    simp only [resolveDbh]
    norm_num
  refine ⟨rfl, h10, ?_⟩
  simp only [calculate_co2_sequestered, resolveDbh]
  norm_num

/-- C1: every call that reaches the numeric pipeline (resolved numeric
`dbh_cm > 0` and `height_m > 0`) returns exactly the five-stage chain
evaluated at the resolved coefficients, in order `agb → *1.2 → *0.725 →
*0.5 → *3.67`; and at `a=1, b=1, c=1, dbh_cm=1, height_m=1` the
intermediates are `agb=1`, `total_biomass=1.2`, `dry_weight=0.87`,
`carbon=0.435`, `co2 = 0.435*3.67`, within tolerance `1e-6` (here the
model's arithmetic is exact, so the tolerance bound is met with margin). -/
theorem c1_pipeline_stages :
    (∀ (gdf : List Zone) (T : CoeffTable) (dbh_cm height_m : PyNum)
        (rcd_cm : Option ℝ) (s : PySpecies) (la lo : Option ℝ) (d h : ℝ),
      resolveDbh dbh_cm rcd_cm = PyNum.num d → height_m = PyNum.num h →
      0 < d → 0 < h →
      calculate_co2_sequestered gdf T dbh_cm height_m rcd_cm s la lo =
        Except.ok (co2_kg (carbon_kg (dry_weight (total_biomass (agb_kg
          ((get_aez_coefficients T (resolveZone gdf la lo) s).a : ℝ)
          ((get_aez_coefficients T (resolveZone gdf la lo) s).b : ℝ)
          ((get_aez_coefficients T (resolveZone gdf la lo) s).c : ℝ) d h)))))) ∧
    agb_kg 1 1 1 1 1 = 1 ∧
    total_biomass 1 = 1.2 ∧
    dry_weight 1.2 = 0.87 ∧
    carbon_kg 0.87 = 0.435 ∧
    co2_kg 0.435 = 0.435 * 3.67 ∧
    |co2_pipeline 1 1 1 1 1 - 0.435 * 3.67| ≤ 1e-6 := by
  constructor
  · intro gdf T dbh_cm height_m rcd_cm s la lo d h hd hh hd0 hh0
    simp only [calculate_co2_sequestered, hd, hh, calcFromDims]
    rw [if_neg (by push_neg; exact ⟨hd0, hh0⟩)]
    rfl
  · refine ⟨?_, ?_, ?_, ?_, ?_, ?_⟩ <;>
      simp [agb_kg, total_biomass, dry_weight, carbon_kg, co2_kg, co2_pipeline,
        Real.one_rpow] <;> norm_num

/-- C1 witness: the P5 instance `dbh_cm = 1, height_m = 1` with no
species and no coordinates reaches the pipeline and returns the chain at
the resolved (default) coefficients. -/
theorem c1_pipeline_stages_witness :
    calculate_co2_sequestered [] [] (PyNum.num 1) (PyNum.num 1) Option.none
        PySpecies.nonStr Option.none Option.none =
      Except.ok (co2_kg (carbon_kg (dry_weight (total_biomass (agb_kg
        ((get_aez_coefficients [] (resolveZone [] Option.none Option.none)
            PySpecies.nonStr).a : ℝ)
        ((get_aez_coefficients [] (resolveZone [] Option.none Option.none)
            PySpecies.nonStr).b : ℝ)
        ((get_aez_coefficients [] (resolveZone [] Option.none Option.none)
            PySpecies.nonStr).c : ℝ) 1 1))))) :=
  c1_pipeline_stages.1 [] [] (PyNum.num 1) (PyNum.num 1) Option.none PySpecies.nonStr
    Option.none Option.none 1 1 rfl rfl one_pos one_pos

/-- C3: the estimator errors exactly when both diameter sources are
absent or a required numeric field (the resolved `dbh_cm`, or
`height_m`) is not numeric; in every other case — any GeoDataFrame
(including the empty load-failure fallback), any species table, any
species value, any coordinates including out-of-range ones — it returns
an `Except.ok` value. The embedding's only error constructor is this
`ValueError`, mirroring that the source raises nothing else on this
input space. -/
theorem c3_invalid_input_iff (gdf : List Zone) (T : CoeffTable)
    (dbh_cm height_m : PyNum) (rcd_cm : Option ℝ) (s : PySpecies) (la lo : Option ℝ) :
    ((∃ msg, calculate_co2_sequestered gdf T dbh_cm height_m rcd_cm s la lo =
        Except.error msg) ↔
      ((dbh_cm = PyNum.none ∧ rcd_cm = Option.none) ∨ dbh_cm = PyNum.nonNum ∨
        height_m = PyNum.none ∨ height_m = PyNum.nonNum)) ∧
    (¬((dbh_cm = PyNum.none ∧ rcd_cm = Option.none) ∨ dbh_cm = PyNum.nonNum ∨
        height_m = PyNum.none ∨ height_m = PyNum.nonNum) →
      ∃ v, calculate_co2_sequestered gdf T dbh_cm height_m rcd_cm s la lo =
        Except.ok v) := by
  have hok : ∀ (d h : ℝ),
      ∃ v, calcFromDims gdf T (PyNum.num d) (PyNum.num h) s la lo = Except.ok v := by
    intro d h
    simp only [calcFromDims]
    split
    · exact ⟨0, rfl⟩
    · exact ⟨_, rfl⟩
  rcases dbh_cm with _ | d | _ <;> rcases height_m with _ | h | _ <;>
    rcases rcd_cm with _ | r <;>
    simp only [calculate_co2_sequestered, resolveDbh] <;>
    first
      | (obtain ⟨v, hv⟩ := hok (r * 0.8) h
         rw [hv]
         simp)
      | (obtain ⟨v, hv⟩ := hok d h
         rw [hv]
         simp)
      | simp [calcFromDims]

/-- C3 witness: P6 (both diameters absent raises) and P7 (the
out-of-range point `latitude=999, longitude=999` still returns a value,
never raises). -/
theorem c3_invalid_input_iff_witness :
    (∃ msg, calculate_co2_sequestered [] [] PyNum.none (PyNum.num 5) Option.none
        PySpecies.nonStr (some 999) (some 999) = Except.error msg) ∧
    (∃ v, calculate_co2_sequestered [] [] (PyNum.num 5) (PyNum.num 5) Option.none
        PySpecies.nonStr (some 999) (some 999) = Except.ok v) :=
  ⟨(c3_invalid_input_iff [] [] PyNum.none (PyNum.num 5) Option.none PySpecies.nonStr
      (some 999) (some 999)).1.mpr (Or.inl ⟨rfl, rfl⟩),
   (c3_invalid_input_iff [] [] (PyNum.num 5) (PyNum.num 5) Option.none PySpecies.nonStr
      (some 999) (some 999)).2 (by simp)⟩

/-- C5 (amended): the code returns only the `co2_kg` component of the
spec's `EstimationResult` — on every successful call its single float
return equals the record's `co2_kg` field, and the two sides err
together. The zone, the coefficients and the intermediate values are
computed internally but are not part of the return value (see the
counterexample). -/
theorem c5_co2_only (gdf : List Zone) (T : CoeffTable) (dbh_cm height_m : PyNum)
    (rcd_cm : Option ℝ) (s : PySpecies) (la lo : Option ℝ) :
    (∀ res, estimate_spec gdf T dbh_cm height_m rcd_cm s la lo = Except.ok res →
      calculate_co2_sequestered gdf T dbh_cm height_m rcd_cm s la lo =
        Except.ok res.co2_kg) ∧
    ((∃ m, estimate_spec gdf T dbh_cm height_m rcd_cm s la lo = Except.error m) ↔
      (∃ m, calculate_co2_sequestered gdf T dbh_cm height_m rcd_cm s la lo =
        Except.error m)) := by
  rcases hd : resolveDbh dbh_cm rcd_cm with _ | d | _ <;> rcases height_m with _ | h | _ <;>
    simp only [estimate_spec, calculate_co2_sequestered, calcFromDims, hd] <;>
    first
      | (by_cases hz : d ≤ 0 ∨ h ≤ 0 <;>
          simp only [hz, if_true, if_false, iff_self, and_true] <;>
          exact ⟨fun res hres => by injection hres with h2; subst h2; rfl, by simp⟩)
      | simp

/-- C5 counterexample: two successful calls whose resolved coefficient
triples differ (`b = 1` via the species entry against the default
`b = 2`) return the exact same value, so the single float the code
returns cannot contain the resolved coefficients (nor the intermediates
that depend on them) — the claim that every successful call returns the
`EstimationResult` record of the invocation contract is false of the
code. -/
theorem c5_counterexample :
    calculate_co2_sequestered [] [("x", ⟨0.25, 1.0, 1.0⟩)] (PyNum.num 4) (PyNum.num 1)
        Option.none (PySpecies.str "x") Option.none Option.none =
      calculate_co2_sequestered [] [("x", ⟨0.25, 1.0, 1.0⟩)] (PyNum.num 1) (PyNum.num 4)
        Option.none PySpecies.nonStr Option.none Option.none ∧
    get_aez_coefficients [("x", ⟨0.25, 1.0, 1.0⟩)] Option.none (PySpecies.str "x") ≠
      get_aez_coefficients [("x", ⟨0.25, 1.0, 1.0⟩)] Option.none PySpecies.nonStr := by
  have h1 : get_aez_coefficients [("x", ⟨0.25, 1.0, 1.0⟩)] Option.none
      (PySpecies.str "x") = ⟨0.25, 1.0, 1.0⟩ := rfl
  have h2 : get_aez_coefficients [("x", ⟨0.25, 1.0, 1.0⟩)] Option.none
      PySpecies.nonStr = ⟨0.25, 2.0, 1.0⟩ := rfl
  constructor
  · simp only [calculate_co2_sequestered, resolveDbh, calcFromDims, resolveZone, h1, h2]
    rw [if_neg (by norm_num), if_neg (by norm_num)]
    have e1 : (4:ℝ) ^ ((1.0:ℚ):ℝ) = 4 := by
      rw [show ((1.0:ℚ):ℝ) = (1:ℝ) by norm_num, Real.rpow_one]
    have e2 : (1:ℝ) ^ ((1.0:ℚ):ℝ) = 1 := Real.one_rpow _
    have e3 : (1:ℝ) ^ ((2.0:ℚ):ℝ) = 1 := Real.one_rpow _
    norm_num [co2_pipeline, agb_kg, total_biomass, dry_weight, carbon_kg, co2_kg,
      e1, e2, e3]
  · rw [h1, h2]
    intro hcon
    have hb := congrArg Coeffs.b hcon
    norm_num at hb

/-- Helper: `List.find?` returns the element at the first index where the
test holds. -/
theorem find_eq_of_first_match {α : Type} (p : α → Bool) :
    ∀ (l : List α) (i : ℕ) (hi : i < l.length), p (l.get ⟨i, hi⟩) = true →
      (∀ j (hj : j < i), p (l.get ⟨j, Nat.lt_trans hj hi⟩) = false) →
      l.find? p = some (l.get ⟨i, hi⟩)
  | a :: t, 0, _, hp, _ => by simp only [List.get] at hp ⊢; simp [List.find?, hp]
  | a :: t, Nat.succ k, hi, hp, hmin => by
    have ha : p a = false := hmin 0 (Nat.succ_pos k)
    simp only [List.find?, ha]
    exact find_eq_of_first_match p t k (Nat.lt_of_succ_lt_succ hi) hp
      (fun j hj => hmin (j + 1) (Nat.succ_lt_succ hj))

/-- C7: the zone resolver returns `None` for every query against the
empty (load-failure) collection; returns `None` when no loaded zone
contains the point; and returns the `gez_name` of the first zone, in the
collection's iteration order, whose geometry contains `Point(lon, lat)`. -/
theorem c7_zone_resolver (gdf : List Zone) (lat lon : ℝ) :
    get_agro_ecological_zone lat lon [] = Option.none ∧
    ((∀ z ∈ gdf, z.containsPt (lon, lat) = false) →
      get_agro_ecological_zone lat lon gdf = Option.none) ∧
    (∀ i (hi : i < gdf.length), (gdf.get ⟨i, hi⟩).containsPt (lon, lat) = true →
      (∀ j (hj : j < i), (gdf.get ⟨j, Nat.lt_trans hj hi⟩).containsPt (lon, lat) = false) →
      get_agro_ecological_zone lat lon gdf = some (gdf.get ⟨i, hi⟩).gez_name) := by
  refine ⟨rfl, fun hall => ?_, fun i hi hp hmin => ?_⟩
  · unfold get_agro_ecological_zone
    split
    · rfl
    · rw [List.find?_eq_none.mpr (fun z hz => by simp [hall z hz])]
      rfl
  · unfold get_agro_ecological_zone
    rw [if_neg ?_, find_eq_of_first_match _ gdf i hi hp hmin]
    · rfl
    · intro he
      rw [List.isEmpty_iff] at he
      subst he
      exact absurd hi (by simp)

/-- C7 witness: with two loaded zones of which only the second contains
the origin, the resolver returns the second zone's name. -/
theorem c7_zone_resolver_witness :
    get_agro_ecological_zone 0 0
      [⟨fun _ => false, "Tropical Dry Forest"⟩, ⟨fun _ => true, "Temperate Forest"⟩]
      = some "Temperate Forest" :=
  (c7_zone_resolver
      [⟨fun _ => false, "Tropical Dry Forest"⟩, ⟨fun _ => true, "Temperate Forest"⟩]
      0 0).2.2 1 (by simp) rfl (fun j hj => by
        have hj0 : j = 0 := by omega
        subst hj0
        rfl)

/-- Helper: the four constant conversion stages after `agb` are strictly
monotone (all four factors are positive). -/
theorem stage_chain_lt {x y : ℝ} (h : x < y) :
    co2_kg (carbon_kg (dry_weight (total_biomass x))) <
      co2_kg (carbon_kg (dry_weight (total_biomass y))) := by
  unfold co2_kg carbon_kg dry_weight total_biomass
  nlinarith

/-- C8: for every fixed coefficient triple with `a, b, c > 0` and
positive dimensions, the pipeline's `co2_kg` is strictly increasing in
`dbh_cm` at fixed `height_m`, and strictly increasing in `height_m` at
fixed `dbh_cm`. -/
theorem c8_monotonic (a b c d₁ d₂ h₁ h₂ : ℝ) (ha : 0 < a) (hb : 0 < b) (hc : 0 < c) :
    (0 < d₁ → d₁ < d₂ → 0 < h₁ →
      co2_pipeline a b c d₁ h₁ < co2_pipeline a b c d₂ h₁) ∧
    (0 < d₁ → 0 < h₁ → h₁ < h₂ →
      co2_pipeline a b c d₁ h₁ < co2_pipeline a b c d₁ h₂) := by
  constructor
  · intro hd₁ hdd hh₁
    unfold co2_pipeline
    apply stage_chain_lt
    unfold agb_kg
    have h1 : d₁ ^ b < d₂ ^ b := Real.rpow_lt_rpow (le_of_lt hd₁) hdd hb
    have h2 : (0:ℝ) < h₁ ^ c := Real.rpow_pos_of_pos hh₁ c
    exact mul_lt_mul_of_pos_right (mul_lt_mul_of_pos_left h1 ha) h2
  · intro hd₁ hh₁ hhh
    unfold co2_pipeline
    apply stage_chain_lt
    unfold agb_kg
    have h1 : h₁ ^ c < h₂ ^ c := Real.rpow_lt_rpow (le_of_lt hh₁) hhh hc
    have h2 : (0:ℝ) < a * d₁ ^ b := mul_pos ha (Real.rpow_pos_of_pos hd₁ b)
    exact mul_lt_mul_of_pos_left h1 h2

/-- C8 witness: at unit coefficients, growing the diameter from 1 to 2
(or the height from 1 to 2) strictly grows the CO2 result. -/
theorem c8_monotonic_witness :
    co2_pipeline 1 1 1 1 1 < co2_pipeline 1 1 1 2 1 ∧
    co2_pipeline 1 1 1 1 1 < co2_pipeline 1 1 1 1 2 :=
  ⟨(c8_monotonic 1 1 1 1 2 1 1 one_pos one_pos one_pos).1 one_pos one_lt_two one_pos,
   (c8_monotonic 1 1 1 1 2 1 2 one_pos one_pos one_pos).2 one_pos one_pos one_lt_two⟩

/-- C9 counterexample: the two CO2 implementations disagree. At
`dbh_cm = 100, height_m = 1` with no species and no coordinates, the
consolidated engine gives `0.25 * 100^2 * 1 * 1.2 * 0.725 * 0.5 * 3.67 =
3991.125` while the kobo reimplementation gives `0.25 * 3.14159 *
(100/100)^2 * 1 * 600 * 0.5 * 3.67 = 864.7226475`: divergent constants
exist between the duplicates. -/
theorem c9_counterexample :
    calculate_co2_sequestered [] [] (PyNum.num 100) (PyNum.num 1) Option.none
        PySpecies.nonStr Option.none Option.none = Except.ok 3991.125 ∧
    KoboIntegration.calculate_co2_sequestered (some 100) (some 1) = 864.7226475 ∧
    (3991.125 : ℝ) ≠ 864.7226475 := by
  refine ⟨?_, ?_, by norm_num⟩
  · have h2 : get_aez_coefficients [] Option.none PySpecies.nonStr
        = ⟨0.25, 2.0, 1.0⟩ := rfl
    simp only [calculate_co2_sequestered, resolveDbh, calcFromDims, resolveZone, h2]
    rw [if_neg (by norm_num)]
    have e1 : (100:ℝ) ^ ((2.0:ℚ):ℝ) = 10000 := by
      rw [show ((2.0:ℚ):ℝ) = ((2:ℕ):ℝ) by norm_num, Real.rpow_natCast]
      norm_num
    have e2 : (1:ℝ) ^ ((1.0:ℚ):ℝ) = 1 := Real.one_rpow _
    norm_num [co2_pipeline, agb_kg, total_biomass, dry_weight, carbon_kg, co2_kg,
      e1, e2]
  · simp only [KoboIntegration.calculate_co2_sequestered]
    rw [if_neg (by norm_num)]
    norm_num

/-- C9 (amended): the `monitoring_app` inlined recomputation
(`agb * 1.2 * 0.725 * 0.5 * 3.67`) computes exactly the consolidated
pipeline at the same coefficients and dimensions; the kobo
reimplementation does not (see the counterexample). -/
theorem c9_monitoring_matches (a b c dbh height : ℝ) :
    MonitoringApp.co2_check a b c dbh height = co2_pipeline a b c dbh height := rfl

end CarbonTally
